import Mathlib

/-
Shallow embedding of the two Streamlit chatbot scripts in this repository:
src/app.py (session-only variant, namespace App) and src/app_1.py
(MongoDB-persistence variant, namespace App1). Streamlit session state
becomes explicit state passing; the OpenAI call is abstracted by a
ProviderOutcome value (success with raw content and token count, or one of
the three caught exception classes); st.error calls are collected as a list
of user-visible error strings; MongoDB documents become a list of StoredDoc
records, with ordered retrieval modelled by a stable insertion sort on the
created_at key.
-/

namespace Chatbot

/-- A chat message as stored in st.session_state.messages: a dict with a
role key and a content key. -/
structure Message where
  role : String
  content : String
deriving Repr, DecidableEq

/-- Python str.strip on a character sequence: remove leading and trailing
whitespace. -/
def stripChars (l : List Char) : List Char :=
  ((l.dropWhile Char.isWhitespace).reverse.dropWhile Char.isWhitespace).reverse

/-- Python str.strip, as applied to the provider reply content. -/
def pyStrip (s : String) : String :=
  String.mk (stripChars s.toList)

/-- Outcome of one openai.ChatCompletion.create call, abstracting the
network: success carries the raw message content and the total_tokens
usage figure; the other constructors are the three caught exception
classes (RateLimitError, Timeout, and any other exception). -/
inductive ProviderOutcome where
  | ok (content : String) (total_tokens : Nat)
  | rateLimited
  | timedOut
  | otherError
deriving Repr, DecidableEq

/-- Classifies the non-success outcomes of a provider call. -/
def ProviderOutcome.isFailure : ProviderOutcome → Bool
  | .ok _ _ => false
  | .rateLimited => true
  | .timedOut => true
  | .otherError => true

end Chatbot

open Chatbot

namespace App

/-- src/app.py line 17. -/
def MAX_MESSAGES : Nat := 20

/-- src/app.py lines 46-60: the strict medical-guardrail system prompt. -/
def SYSTEM_PROMPT : String :=
  "\nYou are a medical assistant chatbot for educational purposes only.\n\nYou have access to previous messages in this session.\nUse them for consistency.\n\nStrict rules:\n- Provide general medical education only.\n- Do NOT diagnose medical conditions.\n- Do NOT prescribe medications or provide dosages.\n- Do NOT replace professional medical consultation.\n- Always mention warning signs requiring urgent care.\n- Encourage consulting a licensed healthcare professional.\n- Be calm, empathetic, and professional.\n"

/-- The fixed system-instruction message prepended at request-build time. -/
def systemMessage : Message :=
  { role := "system", content := SYSTEM_PROMPT }

/-- src/app.py lines 91-95: build_messages prepends the system prompt to a
copy of the buffer. -/
def build_messages (msgs : List Message) : List Message :=
  systemMessage :: msgs

/-- src/app.py lines 98-101: trim_history keeps only the last MAX_MESSAGES
entries when the buffer exceeds that bound. -/
def trim_history (msgs : List Message) : List Message :=
  if msgs.length > MAX_MESSAGES then msgs.drop (msgs.length - MAX_MESSAGES)
  else msgs

/-- src/app.py lines 104-139: generate_ai_response returns the stripped
reply content on success, or None after displaying one class-specific
st.error message. The first component is the returned value, the second
collects the st.error texts displayed during the call. -/
def generate_ai_response (outcome : ProviderOutcome) :
    Option String × List String :=
  match outcome with
  | .ok content _ => (some (pyStrip content), [])
  | .rateLimited =>
      (none, ["Too many requests. Please wait a moment and try again."])
  | .timedOut => (none, ["Request timed out. Please try again."])
  | .otherError => (none, ["AI service temporarily unavailable."])

/-- Observable result of one user turn of src/app.py: the buffer after the
turn, the st.error texts displayed, the assistant text rendered in the chat
widget (if any), whether the provider was called, and whether trim_history
ran at the end of the turn. -/
structure TurnResult where
  messages : List Message
  errors : List String
  assistantDisplayed : Option String
  providerCalled : Bool
  trimCalled : Bool
deriving Repr, DecidableEq

/-- src/app.py lines 148-172: one user turn. Inputs over 2000 characters
are rejected with st.error and st.stop before any append; otherwise the
user message is appended, the provider is called on build_messages of the
updated buffer, a truthy (non-empty) reply is appended and displayed, and
trim_history runs unconditionally at the end of the turn. -/
def handle_turn (msgs : List Message) (user_input : String)
    (outcome : ProviderOutcome) : TurnResult :=
  if user_input.length > 2000 then
    { messages := msgs
      errors := ["Input too long. Please shorten your message."]
      assistantDisplayed := none
      providerCalled := false
      trimCalled := false }
  else
    match generate_ai_response outcome with
    | (some reply, errs) =>
      if reply = "" then
        { messages :=
            trim_history (msgs ++ [{ role := "user", content := user_input }])
          errors := errs
          assistantDisplayed := none
          providerCalled := true
          trimCalled := true }
      else
        { messages :=
            trim_history ((msgs ++ [{ role := "user", content := user_input }])
              ++ [{ role := "assistant", content := reply }])
          errors := errs
          assistantDisplayed := some reply
          providerCalled := true
          trimCalled := true }
    | (none, errs) =>
        { messages :=
            trim_history (msgs ++ [{ role := "user", content := user_input }])
          errors := errs
          assistantDisplayed := none
          providerCalled := true
          trimCalled := true }

/-- Observable result of one full run of src/app.py from startup. -/
structure RunResult where
  halted : Bool
  startupErrors : List String
  messages : List Message
  providerCalls : Nat
deriving Repr, DecidableEq

/-- One fold step of a run: feed a turn input and provider outcome through
handle_turn, accumulating the buffer and the number of provider calls. -/
def run_step (acc : List Message × Nat) (t : String × ProviderOutcome) :
    List Message × Nat :=
  let r := handle_turn acc.1 t.1 t.2
  (r.messages, acc.2 + (if r.providerCalled then 1 else 0))

/-- src/app.py whole-script behaviour: lines 36-38 halt startup with
st.error and st.stop when the OPENAI_API_KEY secret is absent (serving no
turn); otherwise the buffer starts empty (line 74) and each submission is
processed by the turn handler. -/
def run (secrets : List String) (turns : List (String × ProviderOutcome)) :
    RunResult :=
  if "OPENAI_API_KEY" ∈ secrets then
    let final := turns.foldl run_step ([], 0)
    { halted := false
      startupErrors := []
      messages := final.1
      providerCalls := final.2 }
  else
    { halted := true
      startupErrors := ["OpenAI API key not configured."]
      messages := []
      providerCalls := 0 }

end App

namespace App1

/-- src/app_1.py line 21. -/
def MAX_MESSAGES : Nat := 20

/-- src/app_1.py line 78. -/
def SYSTEM_PROMPT : String := "You are a helpful assistant."

/-- The fixed system-instruction message of the persistence variant. -/
def systemMessage : Message :=
  { role := "system", content := SYSTEM_PROMPT }

/-- src/app_1.py lines 119-122. -/
def build_messages (msgs : List Message) : List Message :=
  systemMessage :: msgs

/-- src/app_1.py lines 125-127. -/
def trim_history (msgs : List Message) : List Message :=
  if msgs.length > MAX_MESSAGES then msgs.drop (msgs.length - MAX_MESSAGES)
  else msgs

/-- One document of the conversations collection, as inserted by
save_message: session_id, role, content, token_usage (None for user
messages) and the created_at timestamp (modelled as a Nat clock value). -/
structure StoredDoc where
  session_id : String
  role : String
  content : String
  token_usage : Option Nat
  created_at : Nat
deriving Repr, DecidableEq

/-- src/app_1.py lines 130-137: save_message does insert_one of a new
document carrying the given fields and the current time. -/
def save_message (store : List StoredDoc) (sid role content : String)
    (token_usage : Option Nat) (now : Nat) : List StoredDoc :=
  store ++ [{ session_id := sid, role := role, content := content,
              token_usage := token_usage, created_at := now }]

/-- Ascending created_at order used by the .sort("created_at", 1) query. -/
def byCreatedAt (a b : StoredDoc) : Prop :=
  a.created_at ≤ b.created_at

instance : DecidableRel byCreatedAt :=
  fun a b => inferInstanceAs (Decidable (a.created_at ≤ b.created_at))

/-- src/app_1.py lines 96-100: the find query filtered on session_id and
sorted ascending by created_at, modelled with a stable insertion sort. -/
def find_ordered (store : List StoredDoc) (sid : String) : List StoredDoc :=
  List.insertionSort byCreatedAt (store.filter (fun d => d.session_id == sid))

/-- src/app_1.py lines 102-105: each stored document is projected to a
role/content message dict. -/
def projection (d : StoredDoc) : Message :=
  { role := d.role, content := d.content }

/-- src/app_1.py lines 94-105: when no in-memory buffer exists yet, the
session buffer is initialised verbatim from the ordered stored history. -/
def rehydrate (store : List StoredDoc) (sid : String) : List Message :=
  (find_ordered store sid).map projection

/-- src/app_1.py lines 140-174: generate_response returns the stripped
reply content paired with the token count on success, or (None, None)
after displaying one class-specific st.error message. The outer second
component collects the st.error texts displayed during the call. -/
def generate_response (outcome : ProviderOutcome) :
    (Option String × Option Nat) × List String :=
  match outcome with
  | .ok content tokens => ((some (pyStrip content), some tokens), [])
  | .rateLimited =>
      ((none, none), ["Too many requests. Please try again shortly."])
  | .timedOut => ((none, none), ["Request timed out. Please try again."])
  | .otherError => ((none, none), ["AI service temporarily unavailable."])

/-- Observable result of one user turn of src/app_1.py: buffer, store,
st.error texts, displayed assistant text, whether the provider was called,
and whether trim_history ran. -/
structure TurnResult where
  messages : List Message
  store : List StoredDoc
  errors : List String
  assistantDisplayed : Option String
  providerCalled : Bool
  trimCalled : Bool
deriving Repr, DecidableEq

/-- src/app_1.py lines 183-208: one user turn of the persistence variant.
Over-long input is rejected before any append or insert; otherwise the
user message is appended and saved (with token_usage None, at clock tUser),
the provider is called, a truthy reply is appended, saved with its token
count at clock tAssistant, and displayed, and trim_history runs at the end
of the turn. -/
def handle_turn (sid : String) (msgs : List Message) (store : List StoredDoc)
    (user_input : String) (outcome : ProviderOutcome)
    (tUser tAssistant : Nat) : TurnResult :=
  if user_input.length > 2000 then
    { messages := msgs
      store := store
      errors := ["Input too long. Please shorten your message."]
      assistantDisplayed := none
      providerCalled := false
      trimCalled := false }
  else
    match generate_response outcome with
    | ((some reply, tokens), errs) =>
      if reply = "" then
        { messages :=
            trim_history (msgs ++ [{ role := "user", content := user_input }])
          store := save_message store sid "user" user_input none tUser
          errors := errs
          assistantDisplayed := none
          providerCalled := true
          trimCalled := true }
      else
        { messages :=
            trim_history ((msgs ++ [{ role := "user", content := user_input }])
              ++ [{ role := "assistant", content := reply }])
          store := save_message
              (save_message store sid "user" user_input none tUser)
              sid "assistant" reply tokens tAssistant
          errors := errs
          assistantDisplayed := some reply
          providerCalled := true
          trimCalled := true }
    | ((none, _), errs) =>
        { messages :=
            trim_history (msgs ++ [{ role := "user", content := user_input }])
          store := save_message store sid "user" user_input none tUser
          errors := errs
          assistantDisplayed := none
          providerCalled := true
          trimCalled := true }

/-- One submission of a run of src/app_1.py: the typed text, the provider
outcome for the turn, and the clock values at the two insert points. -/
structure TurnInput where
  input : String
  outcome : ProviderOutcome
  tUser : Nat
  tAssistant : Nat
deriving Repr, DecidableEq

/-- src/app_1.py lines 39-72: the startup checks, in program order. Each
missing required secret (checked in list order) and a failed MongoDB
connection produce an st.error text and st.stop. Returns the displayed
error when startup halts, none when it proceeds. -/
def startup_error (secrets : List String) (storeConnects : Bool) :
    Option String :=
  if "OPENAI_API_KEY" ∉ secrets then
    some "Missing required secret: OPENAI_API_KEY"
  else if "MONGODB_URI" ∉ secrets then
    some "Missing required secret: MONGODB_URI"
  else if storeConnects = false then some "Database connection failed."
  else none

/-- Observable result of one full run of src/app_1.py from startup. -/
structure RunResult where
  halted : Bool
  startupErrors : List String
  messages : List Message
  store : List StoredDoc
  providerCalls : Nat
deriving Repr, DecidableEq

/-- One fold step of a run of the persistence variant. -/
def run_step (sid : String) (acc : List Message × List StoredDoc × Nat)
    (t : TurnInput) : List Message × List StoredDoc × Nat :=
  let r := handle_turn sid acc.1 acc.2.1 t.input t.outcome t.tUser t.tAssistant
  (r.messages, r.store, acc.2.2 + (if r.providerCalled then 1 else 0))

/-- src/app_1.py whole-script behaviour: startup halts (serving no turn,
touching neither buffer nor store) when a required secret is missing or
the store connection fails; otherwise the buffer is rehydrated from the
store and each submission is processed by the turn handler. -/
def run (secrets : List String) (storeConnects : Bool)
    (store0 : List StoredDoc) (sid : String) (turns : List TurnInput) :
    RunResult :=
  match startup_error secrets storeConnects with
  | some err =>
    { halted := true
      startupErrors := [err]
      messages := []
      store := store0
      providerCalls := 0 }
  | none =>
    let final := turns.foldl (run_step sid) (rehydrate store0 sid, store0, 0)
    { halted := false
      startupErrors := []
      messages := final.1
      store := final.2.1
      providerCalls := final.2.2 }

end App1

/-- Concrete buffer contents used to instantiate universally quantified
statements. -/
def sampleMsgs (n : Nat) : List Message :=
  (List.range n).map (fun i => { role := "user", content := toString i })

/-- Concrete stored history (one session, increasing timestamps) used to
instantiate universally quantified statements. -/
def sampleStore (n : Nat) : List App1.StoredDoc :=
  (List.range n).map (fun i =>
    { session_id := "s", role := "user", content := toString i,
      token_usage := none, created_at := i })

namespace App

theorem trim_history_eq_drop (msgs : List Message) :
    trim_history msgs = msgs.drop (msgs.length - MAX_MESSAGES) := by
  unfold trim_history
  split
  · rfl
  · next h =>
      have h0 : msgs.length - MAX_MESSAGES = 0 := by omega
      rw [h0, List.drop_zero]

theorem trim_history_length (msgs : List Message) :
    (trim_history msgs).length = min msgs.length MAX_MESSAGES := by
  rw [trim_history_eq_drop, List.length_drop]
  omega

theorem trim_history_suffix (msgs : List Message) :
    List.IsSuffix (trim_history msgs) msgs := by
  rw [trim_history_eq_drop]
  exact List.drop_suffix _ _

theorem trim_history_id (msgs : List Message) (h : msgs.length ≤ MAX_MESSAGES) :
    trim_history msgs = msgs := by
  unfold trim_history
  rw [if_neg (by omega)]

theorem mem_of_mem_trim {m : Message} {msgs : List Message}
    (h : m ∈ trim_history msgs) : m ∈ msgs := by
  rw [trim_history_eq_drop] at h
  exact List.mem_of_mem_drop h

theorem mem_trim_append_last (msgs : List Message) (m : Message) :
    m ∈ trim_history (msgs ++ [m]) := by
  rw [trim_history_eq_drop]
  have hk : (msgs ++ [m]).length - MAX_MESSAGES ≤ msgs.length := by
    simp only [List.length_append, List.length_singleton, MAX_MESSAGES]
    omega
  rw [List.drop_append_of_le_length hk]
  simp

end App

namespace App1

theorem trim_history_eq_app (msgs : List Message) :
    trim_history msgs = App.trim_history msgs := rfl

theorem orderedInsert_append_last (a d : StoredDoc) (s : List StoredDoc)
    (h : a.created_at ≤ d.created_at) :
    List.orderedInsert byCreatedAt a (s ++ [d])
      = List.orderedInsert byCreatedAt a s ++ [d] := by
  induction s with
  | nil => simp [List.orderedInsert, byCreatedAt, h]
  | cons b t ih =>
      by_cases hb : byCreatedAt a b
      · simp [List.orderedInsert, hb]
      · simp [List.orderedInsert, hb, ih]

theorem insertionSort_append_last (l : List StoredDoc) (d : StoredDoc)
    (h : ∀ e ∈ l, e.created_at ≤ d.created_at) :
    List.insertionSort byCreatedAt (l ++ [d])
      = List.insertionSort byCreatedAt l ++ [d] := by
  induction l with
  | nil => simp [List.insertionSort]
  | cons a t ih =>
      have ha : a.created_at ≤ d.created_at := h a (by simp)
      have ht : ∀ e ∈ t, e.created_at ≤ d.created_at := by
        intro e he
        exact h e (by simp [he])
      simp only [List.cons_append, List.insertionSort, List.append_eq, ih ht,
        orderedInsert_append_last a d _ ha]

theorem mem_find_ordered (store : List StoredDoc) (sid : String)
    (d : StoredDoc) :
    d ∈ find_ordered store sid ↔ d ∈ store ∧ d.session_id = sid := by
  unfold find_ordered
  rw [(List.perm_insertionSort byCreatedAt _).mem_iff, List.mem_filter]
  simp

theorem find_ordered_save (store : List StoredDoc) (sid role content : String)
    (tok : Option Nat) (now : Nat)
    (h : ∀ d ∈ store, d.session_id = sid → d.created_at ≤ now) :
    find_ordered (save_message store sid role content tok now) sid
      = find_ordered store sid ++
        [{ session_id := sid, role := role, content := content,
           token_usage := tok, created_at := now }] := by
  unfold save_message find_ordered
  have hfilter : List.filter (fun d => d.session_id == sid)
      (store ++ [({ session_id := sid, role := role, content := content,
                    token_usage := tok, created_at := now } : StoredDoc)])
      = List.filter (fun d => d.session_id == sid) store ++
        [{ session_id := sid, role := role, content := content,
           token_usage := tok, created_at := now }] := by
    simp [List.filter_append]
  rw [hfilter]
  apply insertionSort_append_last
  intro e he
  rw [List.mem_filter] at he
  exact h e he.1 (by simpa using he.2)

theorem orderedInsert_map_tok (g : StoredDoc → Option Nat) (a : StoredDoc)
    (s : List StoredDoc) :
    List.orderedInsert byCreatedAt { a with token_usage := g a }
        (s.map (fun d => { d with token_usage := g d }))
      = (List.orderedInsert byCreatedAt a s).map
          (fun d => { d with token_usage := g d }) := by
  induction s with
  | nil => simp [List.orderedInsert]
  | cons b t ih =>
      by_cases hb : byCreatedAt a b
      · have hb2 : byCreatedAt { a with token_usage := g a }
            { b with token_usage := g b } := hb
        simp [List.orderedInsert, hb, hb2]
      · have hb2 : ¬ byCreatedAt { a with token_usage := g a }
            { b with token_usage := g b } := hb
        simp [List.orderedInsert, hb, hb2, ih]

theorem insertionSort_map_tok (g : StoredDoc → Option Nat)
    (l : List StoredDoc) :
    List.insertionSort byCreatedAt
        (l.map (fun d => { d with token_usage := g d }))
      = (List.insertionSort byCreatedAt l).map
          (fun d => { d with token_usage := g d }) := by
  induction l with
  | nil => simp [List.insertionSort]
  | cons a t ih =>
      simp only [List.map_cons, List.insertionSort, ih, orderedInsert_map_tok]

theorem filter_map_tok (g : StoredDoc → Option Nat) (store : List StoredDoc)
    (sid : String) :
    (store.map (fun d => { d with token_usage := g d })).filter
        (fun d => d.session_id == sid)
      = (store.filter (fun d => d.session_id == sid)).map
          (fun d => { d with token_usage := g d }) := by
  have hp : ((fun d : StoredDoc => d.session_id == sid)
        ∘ (fun d => { d with token_usage := g d }))
      = (fun d : StoredDoc => d.session_id == sid) := by
    funext d
    rfl
  rw [List.filter_map, hp]

theorem rehydrate_map_tok (g : StoredDoc → Option Nat)
    (store : List StoredDoc) (sid : String) :
    rehydrate (store.map (fun d => { d with token_usage := g d })) sid
      = rehydrate store sid := by
  unfold rehydrate find_ordered
  rw [filter_map_tok, insertionSort_map_tok, List.map_map]
  rfl

end App1

namespace App

theorem handle_turn_messages_sub (msgs : List Message) (input : String)
    (o : ProviderOutcome) :
    ∀ m ∈ (handle_turn msgs input o).messages,
      m ∈ msgs ∨ m.role = "user" ∨ m.role = "assistant" := by
  intro m hm
  unfold handle_turn at hm
  split at hm
  · exact Or.inl hm
  · cases o with
    | ok content tokens =>
        simp only [generate_ai_response] at hm
        split at hm
        · simp only at hm
          rcases List.mem_append.mp (mem_of_mem_trim hm) with h1 | h2
          · exact Or.inl h1
          · right
            left
            simp at h2
            rw [h2]
        · simp only at hm
          rcases List.mem_append.mp (mem_of_mem_trim hm) with h1 | h2
          · rcases List.mem_append.mp h1 with h3 | h4
            · exact Or.inl h3
            · right
              left
              simp at h4
              rw [h4]
          · right
            right
            simp at h2
            rw [h2]
    | rateLimited =>
        simp only [generate_ai_response] at hm
        rcases List.mem_append.mp (mem_of_mem_trim hm) with h1 | h2
        · exact Or.inl h1
        · right
          left
          simp at h2
          rw [h2]
    | timedOut =>
        simp only [generate_ai_response] at hm
        rcases List.mem_append.mp (mem_of_mem_trim hm) with h1 | h2
        · exact Or.inl h1
        · right
          left
          simp at h2
          rw [h2]
    | otherError =>
        simp only [generate_ai_response] at hm
        rcases List.mem_append.mp (mem_of_mem_trim hm) with h1 | h2
        · exact Or.inl h1
        · right
          left
          simp at h2
          rw [h2]

theorem handle_turn_roles (msgs : List Message) (input : String)
    (o : ProviderOutcome) (h : ∀ m ∈ msgs, m.role ≠ "system") :
    ∀ m ∈ (handle_turn msgs input o).messages, m.role ≠ "system" := by
  intro m hm
  rcases handle_turn_messages_sub msgs input o m hm with h1 | h2 | h3
  · exact h m h1
  · rw [h2]
    decide
  · rw [h3]
    decide

theorem run_foldl_roles (turns : List (String × ProviderOutcome))
    (acc : List Message × Nat) (h : ∀ m ∈ acc.1, m.role ≠ "system") :
    ∀ m ∈ (turns.foldl run_step acc).1, m.role ≠ "system" := by
  induction turns generalizing acc with
  | nil => simpa using h
  | cons t ts ih =>
      rw [List.foldl_cons]
      exact ih _ (handle_turn_roles _ _ _ h)

theorem run_roles (secrets : List String)
    (turns : List (String × ProviderOutcome)) :
    ∀ m ∈ (run secrets turns).messages, m.role ≠ "system" := by
  unfold run
  split
  · exact run_foldl_roles turns ([], 0) (by simp)
  · simp

end App

/-- C1: after every trim_history call the buffer length is at most
MAX_MESSAGES = 20; the result is a suffix of the input of length
min(length, MAX_MESSAGES), so when trimming shortens the buffer it keeps
exactly the most recent MAX_MESSAGES messages in their original relative
order, discarding the oldest first; a buffer already within the bound is
left unchanged. The trim_history of the persistence variant agrees with
that of the session-only variant. -/
theorem spec_C1 (msgs : List Message) :
    (App.trim_history msgs).length ≤ App.MAX_MESSAGES ∧
    List.IsSuffix (App.trim_history msgs) msgs ∧
    (App.trim_history msgs).length = min msgs.length App.MAX_MESSAGES ∧
    (msgs.length ≤ App.MAX_MESSAGES → App.trim_history msgs = msgs) ∧
    App1.trim_history msgs = App.trim_history msgs := by
  refine ⟨?_, App.trim_history_suffix msgs, App.trim_history_length msgs,
    App.trim_history_id msgs, App1.trim_history_eq_app msgs⟩
  rw [App.trim_history_length]
  omega

/-- Concrete instantiation of spec_C1 at buffers of length 25 and 3. -/
theorem spec_C1_witness :
    (App.trim_history (sampleMsgs 25)).length ≤ App.MAX_MESSAGES ∧
    App.trim_history (sampleMsgs 3) = sampleMsgs 3 :=
  ⟨(spec_C1 (sampleMsgs 25)).1, (spec_C1 (sampleMsgs 3)).2.2.2.1 (by decide)⟩

/-- C2: build_messages returns exactly length(messages) + 1 entries, whose
entry 0 is the fixed system-instruction message with role system, followed
by every buffer message in order; being a pure function of an immutable
list, it leaves the buffer it was given intact (its tail is the buffer
itself); and over any whole run of the script, starting from the empty
buffer, no message stored in the buffer ever carries role system. -/
theorem spec_C2 (msgs : List Message) (secrets : List String)
    (turns : List (String × ProviderOutcome)) :
    (App.build_messages msgs).length = msgs.length + 1 ∧
    (App.build_messages msgs).head? = some App.systemMessage ∧
    App.systemMessage.role = "system" ∧
    (App.build_messages msgs).tail = msgs ∧
    (∀ m ∈ (App.run secrets turns).messages, m.role ≠ "system") := by
  refine ⟨by simp [App.build_messages], rfl, rfl, rfl, App.run_roles _ _⟩

/-- Concrete instantiation of spec_C2 at a 3-message buffer and a one-turn
run. -/
theorem spec_C2_witness :
    (App.build_messages (sampleMsgs 3)).length = (sampleMsgs 3).length + 1 ∧
    (∀ m ∈ (App.run ["OPENAI_API_KEY"]
        [("hello", ProviderOutcome.rateLimited)]).messages,
      m.role ≠ "system") :=
  ⟨(spec_C2 (sampleMsgs 3) ["OPENAI_API_KEY"]
      [("hello", ProviderOutcome.rateLimited)]).1,
   (spec_C2 (sampleMsgs 3) ["OPENAI_API_KEY"]
      [("hello", ProviderOutcome.rateLimited)]).2.2.2.2⟩

/-- C4: an input longer than 2000 characters aborts the turn before any
append, in both variants: the buffer (and, in the persistence variant, the
store) is exactly what it was, one user-visible error is produced, the
provider is never called and trim_history does not run. -/
theorem spec_C4 (msgs : List Message) (store : List App1.StoredDoc)
    (sid input : String) (outcome : ProviderOutcome) (tU tA : Nat)
    (hlen : 2000 < input.length) :
    App.handle_turn msgs input outcome =
      { messages := msgs
        errors := ["Input too long. Please shorten your message."]
        assistantDisplayed := none
        providerCalled := false
        trimCalled := false } ∧
    App1.handle_turn sid msgs store input outcome tU tA =
      { messages := msgs
        store := store
        errors := ["Input too long. Please shorten your message."]
        assistantDisplayed := none
        providerCalled := false
        trimCalled := false } := by
  constructor
  · unfold App.handle_turn
    rw [if_pos (by omega)]
  · unfold App1.handle_turn
    rw [if_pos (by omega)]

/-- Concrete instantiation of spec_C4 at a 2001-character input. -/
theorem spec_C4_witness :
    App.handle_turn (sampleMsgs 2)
        (String.mk (List.replicate 2001 (Char.ofNat 97)))
        ProviderOutcome.otherError =
      { messages := sampleMsgs 2
        errors := ["Input too long. Please shorten your message."]
        assistantDisplayed := none
        providerCalled := false
        trimCalled := false } :=
  (spec_C4 (sampleMsgs 2) [] "s"
      (String.mk (List.replicate 2001 (Char.ofNat 97)))
      ProviderOutcome.otherError 0 1
      (by
        show 2000 < (List.replicate 2001 (Char.ofNat 97)).length
        rw [List.length_replicate]
        omega)).1

namespace App

theorem handle_turn_failure (msgs : List Message) (input : String)
    (o : ProviderOutcome) (hlen : input.length ≤ 2000)
    (hf : o.isFailure = true) :
    handle_turn msgs input o =
      { messages :=
          trim_history (msgs ++ [{ role := "user", content := input }])
        errors := (generate_ai_response o).2
        assistantDisplayed := none
        providerCalled := true
        trimCalled := true } := by
  unfold handle_turn
  rw [if_neg (by omega)]
  cases o with
  | ok c t => simp [ProviderOutcome.isFailure] at hf
  | rateLimited => rfl
  | timedOut => rfl
  | otherError => rfl

end App

namespace App1

theorem turn_failure_eq (sid : String) (msgs : List Message)
    (store : List StoredDoc) (input : String) (o : ProviderOutcome)
    (tU tA : Nat) (hlen : input.length ≤ 2000) (hf : o.isFailure = true) :
    handle_turn sid msgs store input o tU tA =
      { messages :=
          trim_history (msgs ++ [{ role := "user", content := input }])
        store := save_message store sid "user" input none tU
        errors := (generate_response o).2
        assistantDisplayed := none
        providerCalled := true
        trimCalled := true } := by
  unfold handle_turn
  rw [if_neg (by omega)]
  cases o with
  | ok c t => simp [ProviderOutcome.isFailure] at hf
  | rateLimited => rfl
  | timedOut => rfl
  | otherError => rfl

theorem handle_turn_success (sid : String) (msgs : List Message)
    (store : List StoredDoc) (input content : String) (tokens : Nat)
    (tU tA : Nat) (hlen : input.length ≤ 2000)
    (hr : ¬ pyStrip content = "") :
    handle_turn sid msgs store input (.ok content tokens) tU tA =
      { messages :=
          trim_history ((msgs ++ [{ role := "user", content := input }])
            ++ [{ role := "assistant", content := pyStrip content }])
        store := save_message (save_message store sid "user" input none tU)
            sid "assistant" (pyStrip content) (some tokens) tA
        errors := []
        assistantDisplayed := some (pyStrip content)
        providerCalled := true
        trimCalled := true } := by
  unfold handle_turn
  rw [if_neg (by omega)]
  simp only [generate_response]
  rw [if_neg hr]

theorem handle_turn_store_user (sid : String) (msgs : List Message)
    (store : List StoredDoc) (input : String) (o : ProviderOutcome)
    (tU tA : Nat) (hlen : input.length ≤ 2000) :
    ({ session_id := sid, role := "user", content := input,
       token_usage := none, created_at := tU } : StoredDoc)
      ∈ (handle_turn sid msgs store input o tU tA).store := by
  unfold handle_turn
  rw [if_neg (by omega)]
  cases o with
  | ok c t =>
      simp only [generate_response]
      split
      · simp [save_message]
      · simp [save_message]
  | rateLimited => simp [generate_response, save_message]
  | timedOut => simp [generate_response, save_message]
  | otherError => simp [generate_response, save_message]

end App1

/-- C3: on a turn whose provider call fails (rate limited, timed out, or
any other failure) and whose input passes validation, the turn ends with
the user message appended to (and still present in) the buffer, no
assistant message appended or displayed, exactly one user-visible error
whose text is specific to the failure class, the provider called exactly
once (no retry), and trim_history still called at the end of the turn. -/
theorem spec_C3 (msgs : List Message) (input : String) (o : ProviderOutcome)
    (hlen : input.length ≤ 2000) (hf : o.isFailure = true) :
    (App.handle_turn msgs input o).messages
      = App.trim_history (msgs ++ [{ role := "user", content := input }]) ∧
    ({ role := "user", content := input } : Message)
      ∈ (App.handle_turn msgs input o).messages ∧
    (App.handle_turn msgs input o).assistantDisplayed = none ∧
    (App.handle_turn msgs input o).errors.length = 1 ∧
    (o = .rateLimited → (App.handle_turn msgs input o).errors
      = ["Too many requests. Please wait a moment and try again."]) ∧
    (o = .timedOut → (App.handle_turn msgs input o).errors
      = ["Request timed out. Please try again."]) ∧
    (o = .otherError → (App.handle_turn msgs input o).errors
      = ["AI service temporarily unavailable."]) ∧
    (App.handle_turn msgs input o).providerCalled = true ∧
    (App.handle_turn msgs input o).trimCalled = true := by
  rw [App.handle_turn_failure msgs input o hlen hf]
  refine ⟨rfl, App.mem_trim_append_last msgs _, rfl, ?_, ?_, ?_, ?_, rfl, rfl⟩
  · cases o with
    | ok c t => simp [ProviderOutcome.isFailure] at hf
    | rateLimited => rfl
    | timedOut => rfl
    | otherError => rfl
  · intro h
    subst h
    rfl
  · intro h
    subst h
    rfl
  · intro h
    subst h
    rfl

/-- Concrete instantiation of spec_C3 on a rate-limited turn. -/
theorem spec_C3_witness :
    (App.handle_turn [] "hi" ProviderOutcome.rateLimited).errors
      = ["Too many requests. Please wait a moment and try again."] ∧
    ({ role := "user", content := "hi" } : Message)
      ∈ (App.handle_turn [] "hi" ProviderOutcome.rateLimited).messages :=
  ⟨(spec_C3 [] "hi" ProviderOutcome.rateLimited (by decide) rfl).2.2.2.2.1 rfl,
   (spec_C3 [] "hi" ProviderOutcome.rateLimited (by decide) rfl).2.1⟩

/-- C5: rehydration uses the full ordered stored history verbatim as the
initial buffer, without trimming, so the buffer may start above
MAX_MESSAGES: with 25 stored messages for the session the loaded buffer
has 25 entries, and after the next completed turn (append user, append
assistant, trim) the buffer holds exactly the 20 most recent messages of
the 27 accumulated ones, in their original order. -/
theorem spec_C5 (store : List App1.StoredDoc) (sid input content : String)
    (tokens tU tA : Nat)
    (h25 : (App1.find_ordered store sid).length = 25)
    (hin : input.length ≤ 2000)
    (hreply : ¬ pyStrip content = "") :
    (App1.rehydrate store sid).length = 25 ∧
    App1.rehydrate store sid
      = (App1.find_ordered store sid).map App1.projection ∧
    (App1.handle_turn sid (App1.rehydrate store sid) store input
        (.ok content tokens) tU tA).messages.length = 20 ∧
    (App1.handle_turn sid (App1.rehydrate store sid) store input
        (.ok content tokens) tU tA).messages
      = (App1.rehydrate store sid
          ++ [({ role := "user", content := input } : Message),
              { role := "assistant", content := pyStrip content }]).drop 7 := by
  have hbuf : (App1.rehydrate store sid).length = 25 := by
    unfold App1.rehydrate
    rw [List.length_map, h25]
  rw [App1.handle_turn_success sid _ store input content tokens tU tA hin
    hreply]
  have hX : ((App1.rehydrate store sid
      ++ [({ role := "user", content := input } : Message)])
      ++ [({ role := "assistant", content := pyStrip content } : Message)]).length
      = 27 := by
    simp [hbuf]
  have happ : (App1.rehydrate store sid
        ++ [({ role := "user", content := input } : Message)])
        ++ [({ role := "assistant", content := pyStrip content } : Message)]
      = App1.rehydrate store sid
          ++ [{ role := "user", content := input },
              { role := "assistant", content := pyStrip content }] := by
    simp
  refine ⟨hbuf, rfl, ?_, ?_⟩
  · rw [App1.trim_history_eq_app, App.trim_history_length, hX]
    rfl
  · rw [App1.trim_history_eq_app, App.trim_history_eq_drop, hX, happ]
    rfl

/-- Concrete instantiation of spec_C5 on a 25-document store. -/
theorem spec_C5_witness :
    (App1.rehydrate (sampleStore 25) "s").length = 25 ∧
    (App1.handle_turn "s" (App1.rehydrate (sampleStore 25) "s")
        (sampleStore 25) "hi" (.ok " ok " 3) 25 26).messages.length = 20 :=
  ⟨(spec_C5 (sampleStore 25) "s" "hi" " ok " 3 25 26 (by decide) (by decide)
      (by decide)).1,
   (spec_C5 (sampleStore 25) "s" "hi" " ok " 3 25 26 (by decide) (by decide)
      (by decide)).2.2.1⟩

/-- C6: persisting a message via save_message and then retrieving the
ordered history for that session yields exactly the prior ordered history
with the new document (matching role and content) at the end, provided its
timestamp is at least that of every previously persisted entry of the
session; and every prior retrieved entry indeed has a timestamp at most
the new one. -/
theorem spec_C6 (store : List App1.StoredDoc) (sid role content : String)
    (tok : Option Nat) (now : Nat)
    (h : ∀ d ∈ store, d.session_id = sid → d.created_at ≤ now) :
    App1.find_ordered (App1.save_message store sid role content tok now) sid
      = App1.find_ordered store sid ++
        [{ session_id := sid, role := role, content := content,
           token_usage := tok, created_at := now }] ∧
    (∀ d ∈ App1.find_ordered store sid, d.created_at ≤ now) := by
  refine ⟨App1.find_ordered_save store sid role content tok now h, ?_⟩
  intro d hd
  rw [App1.mem_find_ordered] at hd
  exact h d hd.1 hd.2

/-- Concrete instantiation of spec_C6 on a two-document store. -/
theorem spec_C6_witness :
    App1.find_ordered
        (App1.save_message (sampleStore 2) "s" "user" "x" none 5) "s"
      = App1.find_ordered (sampleStore 2) "s" ++
        [{ session_id := "s", role := "user", content := "x",
           token_usage := none, created_at := 5 }] :=
  (spec_C6 (sampleStore 2) "s" "user" "x" none 5 (by decide)).1

/-- C7: a missing required secret halts startup of either variant with one
user-visible error before any turn is served, as does a failed store
connection in the persistence variant: the buffer stays empty, the store
is untouched, and the provider is never called, whatever submissions would
have followed. -/
theorem spec_C7 (secrets : List String) (storeConnects : Bool)
    (store0 : List App1.StoredDoc) (sid : String)
    (turnsA : List (String × ProviderOutcome))
    (turns1 : List App1.TurnInput) :
    ("OPENAI_API_KEY" ∉ secrets →
      App.run secrets turnsA =
        { halted := true
          startupErrors := ["OpenAI API key not configured."]
          messages := []
          providerCalls := 0 }) ∧
    (("OPENAI_API_KEY" ∉ secrets ∨ "MONGODB_URI" ∉ secrets ∨
        storeConnects = false) →
      (App1.run secrets storeConnects store0 sid turns1).halted = true ∧
      (App1.run secrets storeConnects store0 sid
          turns1).startupErrors.length = 1 ∧
      (App1.run secrets storeConnects store0 sid turns1).messages = [] ∧
      (App1.run secrets storeConnects store0 sid turns1).store = store0 ∧
      (App1.run secrets storeConnects store0 sid turns1).providerCalls
        = 0) := by
  constructor
  · intro h
    unfold App.run
    rw [if_neg h]
  · intro h
    have hs : ∃ e, App1.startup_error secrets storeConnects = some e := by
      unfold App1.startup_error
      by_cases h1 : "OPENAI_API_KEY" ∉ secrets
      · rw [if_pos h1]
        exact ⟨_, rfl⟩
      · rw [if_neg h1]
        by_cases h2 : "MONGODB_URI" ∉ secrets
        · rw [if_pos h2]
          exact ⟨_, rfl⟩
        · rw [if_neg h2]
          have h3 : storeConnects = false := by tauto
          rw [if_pos h3]
          exact ⟨_, rfl⟩
    obtain ⟨e, he⟩ := hs
    unfold App1.run
    rw [he]
    exact ⟨rfl, rfl, rfl, rfl, rfl⟩

/-- Concrete instantiation of spec_C7 with no secrets configured. -/
theorem spec_C7_witness :
    App.run [] [] =
      { halted := true
        startupErrors := ["OpenAI API key not configured."]
        messages := []
        providerCalls := 0 } ∧
    (App1.run [] false [] "s" []).providerCalls = 0 :=
  ⟨(spec_C7 [] false [] "s" [] []).1 (by decide),
   ((spec_C7 [] false [] "s" [] []).2 (Or.inl (by decide))).2.2.2.2⟩

/-- C8: when the provider succeeds but the returned content strips to the
empty string, the Python truthiness test treats the reply like a failure
in both variants: the user message is appended (and, in the persistence
variant, saved), no assistant message is appended, displayed or saved, no
error is shown, and trim_history still runs. -/
theorem spec_C8 (msgs : List Message) (store : List App1.StoredDoc)
    (sid input content : String) (tokens : Nat) (tU tA : Nat)
    (hlen : input.length ≤ 2000) (hws : pyStrip content = "") :
    App.handle_turn msgs input (.ok content tokens) =
      { messages :=
          App.trim_history (msgs ++ [{ role := "user", content := input }])
        errors := []
        assistantDisplayed := none
        providerCalled := true
        trimCalled := true } ∧
    App1.handle_turn sid msgs store input (.ok content tokens) tU tA =
      { messages :=
          App1.trim_history (msgs ++ [{ role := "user", content := input }])
        store := App1.save_message store sid "user" input none tU
        errors := []
        assistantDisplayed := none
        providerCalled := true
        trimCalled := true } := by
  constructor
  · unfold App.handle_turn
    rw [if_neg (by omega)]
    simp only [App.generate_ai_response]
    rw [if_pos hws]
  · unfold App1.handle_turn
    rw [if_neg (by omega)]
    simp only [App1.generate_response]
    rw [if_pos hws]

/-- Concrete instantiation of spec_C8 on a whitespace-only reply. -/
theorem spec_C8_witness :
    App.handle_turn [] "q" (.ok " \n " 7) =
      { messages :=
          App.trim_history ([] ++ [{ role := "user", content := "q" }])
        errors := []
        assistantDisplayed := none
        providerCalled := true
        trimCalled := true } :=
  (spec_C8 [] [] "s" "q" " \n " 7 0 1 (by decide) (by decide)).1

/-- C9: in the persistence variant the user message is written to the
store unconditionally once input validation passes (it is present in the
resulting store for every provider outcome, reflecting that the insert
precedes the provider request and is never rolled back); after a provider
failure the store is exactly the old store plus that user document, with
no paired assistant document. -/
theorem spec_C9 (msgs : List Message) (store : List App1.StoredDoc)
    (sid input : String) (o : ProviderOutcome) (tU tA : Nat)
    (hlen : input.length ≤ 2000) (hf : o.isFailure = true) :
    (App1.handle_turn sid msgs store input o tU tA).store
      = store ++ [{ session_id := sid, role := "user", content := input,
                    token_usage := none, created_at := tU }] ∧
    (∀ o2 : ProviderOutcome,
      ({ session_id := sid, role := "user", content := input,
         token_usage := none, created_at := tU } : App1.StoredDoc)
        ∈ (App1.handle_turn sid msgs store input o2 tU tA).store) := by
  refine ⟨?_, fun o2 =>
    App1.handle_turn_store_user sid msgs store input o2 tU tA hlen⟩
  rw [App1.turn_failure_eq sid msgs store input o tU tA hlen hf]
  rfl

/-- Concrete instantiation of spec_C9 on a timed-out turn. -/
theorem spec_C9_witness :
    (App1.handle_turn "s" [] [] "hi" ProviderOutcome.timedOut 4 9).store
      = [] ++ [{ session_id := "s", role := "user", content := "hi",
                 token_usage := none, created_at := 4 }] :=
  (spec_C9 [] [] "s" "hi" ProviderOutcome.timedOut 4 9 (by decide) rfl).1

/-- C10: rehydration projects every stored document to its role and
content fields only: changing the token_usage values of the stored
documents in any way leaves the rehydrated buffer unchanged, and the
rehydrated buffer is the field projection of the ordered history, even
though save_message writes token_usage and created_at into every
persisted document. -/
theorem spec_C10 (store : List App1.StoredDoc) (sid role content : String)
    (tok : Option Nat) (now : Nat) (g : App1.StoredDoc → Option Nat) :
    App1.rehydrate store sid
      = (App1.find_ordered store sid).map App1.projection ∧
    (∀ d : App1.StoredDoc,
      App1.projection d = { role := d.role, content := d.content }) ∧
    App1.rehydrate (store.map (fun d => { d with token_usage := g d })) sid
      = App1.rehydrate store sid ∧
    App1.save_message store sid role content tok now
      = store ++ [{ session_id := sid, role := role, content := content,
                    token_usage := tok, created_at := now }] :=
  ⟨rfl, fun _ => rfl, App1.rehydrate_map_tok g store sid, rfl⟩
